import Mathlib

/-!
Verification of the block-materializer interface declared in
`pandas/_libs/ndframe_iter.h`.

The header declares a result struct `PdBlocksIter` (a count `len` and an
array `data` of opaque `PyArrayObject *` handles) and a single factory
`PdFrameIter_New(df, axis)` that deconstructs a DataFrame's block storage
into that struct in the order reported by the table's BlockManager,
returning NULL on error. The factory's body is not part of the repository,
so its behavior is modelled from the specification; the declarations
themselves (names, field shapes, the spelled return type) come from the
header text.
-/

/-- Opaque buffer handle: the identity of one block's underlying array
object (`PyArrayObject *` in the source). The model tracks identities only;
buffer contents are never read or written. -/
abbrev BufferHandle := Nat

/-- The result struct from the source header:
`typedef struct { Py_ssize_t len; PyArrayObject **data; } PdBlocksIter;`.
`len` is the count of handles and `data` the ordered handle sequence. The
struct has exactly these two fields: it retains no reference to the source
table and no axis value. -/
structure PdBlocksIter where
  len : Int
  data : List BufferHandle
  deriving DecidableEq

/-- Modelled from the spec: the external table/DataFrame collaborator.
The implementation of `PdFrameIter_New` is missing from the repository (the
header only declares it), so the table is the capability interface the spec
describes: a storage-manager capability flag, the set of valid axis values
(owned by the external table type), and the storage manager's block order
(ordered sequence of borrowed buffer handles) for each axis. -/
structure Table where
  hasManager : Bool
  axisValid : Int → Bool
  blockOrder : Int → List BufferHandle

/-- Modelled from the spec: the error taxonomy (`InvalidInput`,
`AllocationFailure`). In this pure model allocation always succeeds, so
`AllocationFailure` is never produced; it is kept to mirror the taxonomy. -/
inductive MaterializeError
  | InvalidInput
  | AllocationFailure
  deriving DecidableEq

/-- Modelled from the spec: the bounded traversal that walks the storage
manager's block order and emits one borrowed handle per block, preserving
order (no resorting, no reordering). -/
def collectBuffers : List BufferHandle → List BufferHandle
  | [] => []
  | b :: rest => b :: collectBuffers rest

/-- Cost model for `collectBuffers`: the number of evaluation steps of the
traversal (one step per block plus the final empty case). -/
def traversalSteps : List BufferHandle → Nat
  | [] => 1
  | _ :: rest => 1 + traversalSteps rest

/-- Modelled from the spec: `PdFrameIter_New` (`materialize(table, axis)` in
the spec), whose body is missing from the repository. A null or
capability-lacking table, or an axis outside the table's valid range, fails
with `InvalidInput`; otherwise the manager's block order along `axis` is
materialized into a `PdBlocksIter`. State is passed explicitly: the second
component of the result is the source table as left after the call (the
operation is read-only, so it is returned unchanged). -/
def PdFrameIter_New (table : Option Table) (axis : Int) :
    Except MaterializeError PdBlocksIter × Option Table :=
  match table with
  | none => (Except.error MaterializeError.InvalidInput, none)
  | some t =>
    if t.hasManager = false then
      (Except.error MaterializeError.InvalidInput, some t)
    else if t.axisValid axis = false then
      (Except.error MaterializeError.InvalidInput, some t)
    else
      let bs := collectBuffers (t.blockOrder axis)
      (Except.ok { len := (bs.length : Int), data := bs }, some t)

/-- The typedef name the header gives the result struct. -/
def headerResultStructName : String := "PdBlocksIter"

/-- The type names the header fragment declares (its single typedef). -/
def headerDeclaredTypeNames : List String := ["PdBlocksIter"]

/-- The return type spelled in the factory's declaration in the header:
`PdIter *PdFrameIter_New(PyObject *df, int axis);`. -/
def headerFactoryReturnTypeName : String := "PdIter"

/-- A concrete valid table for witnesses: three blocks whose manager order
[7, 3, 5] is deliberately not sorted (the spec's [C, A, B] example). -/
def T0 : Table :=
  { hasManager := true, axisValid := fun _ => true, blockOrder := fun _ => [7, 3, 5] }

/-- A second concrete valid table for witnesses: a different table object
(different valid-axis set) whose manager reports the same block order along
axis 5 as `T0` reports along axis 0. -/
def T1 : Table :=
  { hasManager := true, axisValid := fun z => decide (z = 5),
    blockOrder := fun _ => [7, 3, 5] }

/-- A concrete valid table with zero blocks along every axis. -/
def Tempty : Table :=
  { hasManager := true, axisValid := fun _ => true, blockOrder := fun _ => [] }

theorem collectBuffers_eq (l : List BufferHandle) : collectBuffers l = l := by
  induction l with
  | nil => rfl
  | cons b rest ih => simp [collectBuffers, ih]

theorem traversalSteps_eq (l : List BufferHandle) :
    traversalSteps l = l.length + 1 := by
  induction l with
  | nil => rfl
  | cons b rest ih => simp [traversalSteps, ih]; omega

/-- On a valid table with a valid axis, `PdFrameIter_New` succeeds and its
result is exactly the manager's block order. -/
theorem PdFrameIter_New_ok (t : Table) (a : Int)
    (hm : t.hasManager = true) (ha : t.axisValid a = true) :
    (PdFrameIter_New (some t) a).1 =
      Except.ok { len := ((t.blockOrder a).length : Int), data := t.blockOrder a } := by
  simp [PdFrameIter_New, hm, ha, collectBuffers_eq]

/-- C1: for a valid table with N blocks along a valid axis, the result has
`len` equal to N and `data` equal, element by element in the same order, to
the block sequence the storage manager reports for that axis (the list
equality gives `data[i] = blockOrder[i]` for every index i and rules out any
resorting). -/
theorem materialize_count_and_order (t : Table) (a : Int)
    (hm : t.hasManager = true) (ha : t.axisValid a = true) :
    (PdFrameIter_New (some t) a).1 =
      Except.ok { len := ((t.blockOrder a).length : Int), data := t.blockOrder a } :=
  PdFrameIter_New_ok t a hm ha

theorem materialize_count_and_order_witness :
    (PdFrameIter_New (some T0) 0).1 =
      Except.ok { len := (3 : Int), data := [7, 3, 5] } :=
  materialize_count_and_order T0 0 rfl rfl

/-- C2: determinism. A second call performed on the table state returned by
a first call (no mutation in between) succeeds or fails alike, and on
success the two results have the same count and pointwise-identical buffer
handles in the same order. -/
theorem materialize_deterministic (t : Option Table) (a : Int)
    (b1 b2 : PdBlocksIter)
    (h1 : (PdFrameIter_New t a).1 = Except.ok b1)
    (h2 : (PdFrameIter_New (PdFrameIter_New t a).2 a).1 = Except.ok b2) :
    b1.len = b2.len ∧ b1.data = b2.data := by
  have hstate : (PdFrameIter_New t a).2 = t := by
    cases t with
    | none => rfl
    | some tb =>
      by_cases hm : tb.hasManager = false
      · simp [PdFrameIter_New, hm]
      · by_cases ha : tb.axisValid a = false
        · simp [PdFrameIter_New, hm, ha]
        · simp [PdFrameIter_New, hm, ha]
  rw [hstate, h1] at h2
  cases h2
  exact ⟨rfl, rfl⟩

theorem materialize_deterministic_witness :
    PdBlocksIter.len { len := (3 : Int), data := [7, 3, 5] } =
        PdBlocksIter.len { len := (3 : Int), data := [7, 3, 5] } ∧
      PdBlocksIter.data { len := (3 : Int), data := [7, 3, 5] } =
        PdBlocksIter.data { len := (3 : Int), data := [7, 3, 5] } :=
  materialize_deterministic (some T0) 0
    { len := (3 : Int), data := [7, 3, 5] }
    { len := (3 : Int), data := [7, 3, 5] } rfl rfl

/-- C3: atomic outcome. Every call leaves the source table exactly as it
was, and either fails with an explicit error signal or returns a fully
populated result (its `len` agrees with the length of its handle sequence);
no partially populated result is ever produced. -/
theorem materialize_atomic (t : Option Table) (a : Int) :
    (PdFrameIter_New t a).2 = t ∧
      ((∃ e, (PdFrameIter_New t a).1 = Except.error e) ∨
        (∃ b, (PdFrameIter_New t a).1 = Except.ok b ∧
          b.len = (b.data.length : Int))) := by
  cases t with
  | none => exact ⟨rfl, Or.inl ⟨MaterializeError.InvalidInput, rfl⟩⟩
  | some tb =>
    by_cases hm : tb.hasManager = false
    · exact ⟨by simp [PdFrameIter_New, hm], Or.inl ⟨MaterializeError.InvalidInput, by simp [PdFrameIter_New, hm]⟩⟩
    · by_cases ha : tb.axisValid a = false
      · exact ⟨by simp [PdFrameIter_New, hm, ha],
          Or.inl ⟨MaterializeError.InvalidInput, by simp [PdFrameIter_New, hm, ha]⟩⟩
      · refine ⟨by simp [PdFrameIter_New, hm, ha], Or.inr ?_⟩
        refine ⟨{ len := ((tb.blockOrder a).length : Int), data := tb.blockOrder a }, ?_, rfl⟩
        simp [PdFrameIter_New, hm, ha, collectBuffers_eq]

/-- C4: the call fails with `InvalidInput` exactly when the table is null,
lacks the storage-manager capability, or the axis is outside the table's
valid range (no silent clamping); in particular a null table fails with
`InvalidInput` for every axis value. -/
theorem materialize_invalid_input_iff (t : Option Table) (a : Int) :
    (PdFrameIter_New none a).1 = Except.error MaterializeError.InvalidInput ∧
      ((PdFrameIter_New t a).1 = Except.error MaterializeError.InvalidInput ↔
        (t = none ∨ ∃ tb, t = some tb ∧
          (tb.hasManager = false ∨ tb.axisValid a = false))) := by
  refine ⟨rfl, ?_⟩
  cases t with
  | none => simp [PdFrameIter_New]
  | some tb =>
    by_cases hm : tb.hasManager = false
    · simp [PdFrameIter_New, hm]
    · by_cases ha : tb.axisValid a = false
      · simp [PdFrameIter_New, hm, ha]
      · simp [PdFrameIter_New, hm, ha, collectBuffers_eq]

/-- C5: the operation never mutates the source table: the table state after
any call, successful or failed, is identical to the state before it. -/
theorem materialize_no_mutation (t : Option Table) (a : Int) :
    (PdFrameIter_New t a).2 = t := by
  cases t with
  | none => rfl
  | some tb =>
    by_cases hm : tb.hasManager = false
    · simp [PdFrameIter_New, hm]
    · by_cases ha : tb.axisValid a = false
      · simp [PdFrameIter_New, hm, ha]
      · simp [PdFrameIter_New, hm, ha]

/-- C6: a valid table with zero blocks along a valid axis succeeds (it is
not a failure) with count 0 and an empty buffer sequence. -/
theorem materialize_empty (t : Table) (a : Int)
    (hm : t.hasManager = true) (ha : t.axisValid a = true)
    (hz : t.blockOrder a = []) :
    (PdFrameIter_New (some t) a).1 =
      Except.ok { len := (0 : Int), data := [] } := by
  simp [PdFrameIter_New, hm, ha, hz, collectBuffers_eq]

theorem materialize_empty_witness :
    (PdFrameIter_New (some Tempty) 2).1 =
      Except.ok { len := (0 : Int), data := [] } :=
  materialize_empty Tempty 2 rfl rfl rfl

/-- C7: every successfully constructed result satisfies the invariant that
its count is non-negative and equals the length of its buffer sequence. The
model has no operation that mutates a `PdBlocksIter` after construction, so
the invariant established here is preserved for the result's lifetime. -/
theorem result_invariant (t : Option Table) (a : Int) (b : PdBlocksIter)
    (h : (PdFrameIter_New t a).1 = Except.ok b) :
    0 ≤ b.len ∧ b.len = (b.data.length : Int) := by
  cases t with
  | none => cases h
  | some tb =>
    by_cases hm : tb.hasManager = false
    · rw [show (PdFrameIter_New (some tb) a).1 = Except.error MaterializeError.InvalidInput
        by simp [PdFrameIter_New, hm]] at h
      cases h
    · by_cases ha : tb.axisValid a = false
      · rw [show (PdFrameIter_New (some tb) a).1 = Except.error MaterializeError.InvalidInput
          by simp [PdFrameIter_New, hm, ha]] at h
        cases h
      · rw [show (PdFrameIter_New (some tb) a).1 =
            Except.ok { len := ((tb.blockOrder a).length : Int), data := tb.blockOrder a }
          by simp [PdFrameIter_New, hm, ha, collectBuffers_eq]] at h
        cases h
        exact ⟨Int.ofNat_nonneg _, rfl⟩

theorem result_invariant_witness :
    0 ≤ PdBlocksIter.len { len := (3 : Int), data := [7, 3, 5] } ∧
      PdBlocksIter.len { len := (3 : Int), data := [7, 3, 5] } =
        ((PdBlocksIter.data { len := (3 : Int), data := [7, 3, 5] }).length : Int) :=
  result_invariant (some T0) 0 { len := (3 : Int), data := [7, 3, 5] } rfl

/-- C8: in the header, the factory's declared return type is spelled
`PdIter`, which is not the declared result struct `PdBlocksIter` and is not
any type the header declares at all: the declaration contradicts the
header's own comments, which describe the factory as producing the
deconstructed block data held by the struct. -/
theorem factory_return_type_mismatch :
    headerFactoryReturnTypeName ≠ headerResultStructName ∧
      headerFactoryReturnTypeName ∉ headerDeclaredTypeNames := by
  decide

/-- C9: the operation is total on valid inputs and is a bounded traversal:
it terminates with a fully built result, and the traversal it performs over
the manager's N blocks takes exactly N + 1 evaluation steps (linear in the
number of blocks). It is a pure in-memory computation with no I/O and no
suspension point. -/
theorem materialize_bounded (t : Table) (a : Int)
    (hm : t.hasManager = true) (ha : t.axisValid a = true) :
    (∃ b, (PdFrameIter_New (some t) a).1 = Except.ok b) ∧
      traversalSteps (t.blockOrder a) = (t.blockOrder a).length + 1 := by
  exact ⟨⟨{ len := ((t.blockOrder a).length : Int), data := t.blockOrder a },
    PdFrameIter_New_ok t a hm ha⟩, traversalSteps_eq _⟩

theorem materialize_bounded_witness :
    (∃ b, (PdFrameIter_New (some T0) 0).1 = Except.ok b) ∧
      traversalSteps (T0.blockOrder 0) = (T0.blockOrder 0).length + 1 :=
  materialize_bounded T0 0 rfl rfl

/-- C10: the result is self-contained: it is fully determined by the buffer
sequence the manager reported, retaining no reference to the source table
object or to the axis argument. Two calls on different valid tables and
different axes whose managers report the same block sequence produce
identical results. -/
theorem result_self_contained (t t2 : Table) (a a2 : Int)
    (hm : t.hasManager = true) (hm2 : t2.hasManager = true)
    (ha : t.axisValid a = true) (ha2 : t2.axisValid a2 = true)
    (hb : t.blockOrder a = t2.blockOrder a2) :
    (PdFrameIter_New (some t) a).1 = (PdFrameIter_New (some t2) a2).1 := by
  rw [PdFrameIter_New_ok t a hm ha, PdFrameIter_New_ok t2 a2 hm2 ha2, hb]

theorem result_self_contained_witness :
    (PdFrameIter_New (some T0) 0).1 = (PdFrameIter_New (some T1) 5).1 :=
  result_self_contained T0 T1 0 5 rfl rfl rfl rfl rfl
